import Mathlib

/-!
Shallow embedding of the Boya-V2 pH sensor driver (`src/sensor/sensor_ph.cpp`)
and the TTN decoder-mirror generator (`src/ttn_decoder_generator.cpp`).

Hardware and library effects (ADC sampling, the DFRobot_PH conversion,
serial input) are modelled as environment inputs; the driver's global
mutable state (`sensor_available`, `sensor_powered`, `temperature`) is an
explicit state record threaded through each operation.  Floating-point
values are modelled as rationals; the C cast `(uint16_t)(float)` is
modelled as truncation toward zero followed by reduction mod 2^16.
-/

/-- Modelled from the spec: `SENSOR_ERROR_PH` is defined in `config.h`,
which is not among the sources; the spec only requires a reserved sentinel
value distinct from any physically plausible pH reading. -/
def SENSOR_ERROR_PH : ℚ := -1

/-- Modelled from the spec: `PH_MIN` from `config.h` (not among the
sources), the lower bound of the physically plausible pH range. -/
def PH_MIN : ℚ := 0

/-- Modelled from the spec: `PH_MAX` from `config.h` (not among the
sources), the upper bound of the physically plausible pH range. -/
def PH_MAX : ℚ := 14

/-- Modelled from the spec: `PH_DEFAULT_TEMPERATURE` from `config.h`
(not among the sources), the initial temperature-compensation value. -/
def PH_DEFAULT_TEMPERATURE : ℚ := 25

/-- The driver's file-static mutable state in `sensor_ph.cpp`:
`sensor_available`, `sensor_powered`, and the compensation `temperature`. -/
structure PhState where
  sensor_available : Bool
  sensor_powered : Bool
  temperature : ℚ
deriving DecidableEq

/-- Inputs supplied by hardware and external libraries during one call:
the pH value the DFRobot library computes from the sampled voltage
(`ph_sensor.readPH`), whether serial calibration input is pending
(`Serial.available() != 0`), and the indeterminate initial contents of the
local `sensor_data_t data` variable in `sensor_ph_get_payload`. -/
structure PhEnv where
  ph_value : ℚ
  serial_pending : Bool
  uninit_ph : ℚ
deriving DecidableEq

/-- The slice of `sensor_data_t` (from `config.h`) owned by the pH driver. -/
structure sensor_data_t where
  ph : ℚ
deriving DecidableEq

/-- `sensor_ph_power_on`: energizes the rail unless already powered. -/
def sensor_ph_power_on (st : PhState) : PhState :=
  if st.sensor_powered then st else { st with sensor_powered := true }

/-- `sensor_ph_power_off`: de-energizes the rail unless already off. -/
def sensor_ph_power_off (st : PhState) : PhState :=
  if !st.sensor_powered then st else { st with sensor_powered := false }

/-- `sensor_ph_init`: configures pins, starts the DFRobot library,
unconditionally marks the sensor available and returns `true`. -/
def sensor_ph_init (st : PhState) : Bool × PhState :=
  (true, { st with sensor_available := true })

/-- `sensor_ph_is_available`: pure query of the availability flag. -/
def sensor_ph_is_available (st : PhState) : Bool :=
  st.sensor_available

/-- `sensor_ph_retry_init`: returns `true` immediately when available,
otherwise re-runs `sensor_ph_init`. -/
def sensor_ph_retry_init (st : PhState) : Bool × PhState :=
  if st.sensor_available then (true, st) else sensor_ph_init st

/-- `read_ph_value`: averages ADC samples, converts to a voltage and asks
the DFRobot library for the pH; the ADC and the library are external, so
the produced value is taken from the environment. -/
def read_ph_value (env : PhEnv) : ℚ :=
  env.ph_value

/-- `sensor_ph_set_temperature`: stores the temperature only when it lies
in `[-50, 100]`, silently ignoring it otherwise. -/
def sensor_ph_set_temperature (st : PhState) (temp : ℚ) : PhState :=
  if -50 ≤ temp ∧ temp ≤ 100 then { st with temperature := temp } else st

/-- Result of one `sensor_ph_read_all` call: the returned Bool, the
contents of the caller's record afterwards (`none` models a null
pointer), the driver state afterwards, and whether the out-of-range
warning was logged. -/
structure ReadResult where
  ok : Bool
  data : Option sensor_data_t
  state : PhState
  warned_out_of_range : Bool
deriving DecidableEq

/-- `sensor_ph_read_all`: fails (returning `false`, touching nothing) when
unavailable or given a null record; otherwise powers the rail on, reads,
logs a warning if the value is outside `[PH_MIN, PH_MAX]`, stores the
value regardless, powers the rail off, and returns `true`. -/
def sensor_ph_read_all (st : PhState) (env : PhEnv) (data : Option sensor_data_t) :
    ReadResult :=
  if !st.sensor_available || data.isNone then ⟨false, data, st, false⟩
  else
    let st1 := sensor_ph_power_on st
    let ph := read_ph_value env
    let warned := if ph < PH_MIN ∨ PH_MAX < ph then true else false
    let st2 := sensor_ph_power_off st1
    ⟨true, some ⟨ph⟩, st2, warned⟩

/-- Truncation toward zero of a rational, the value a C cast from a
floating-point value to an integer type produces when in range. -/
def ratTrunc (q : ℚ) : ℤ :=
  if q < 0 then ⌈q⌉ else ⌊q⌋

/-- The encoding step of `sensor_ph_get_payload`:
`uint16_t ph_int = (uint16_t)(data.ph * 100);`
`config->buffer[0] = ph_int >> 8; config->buffer[1] = ph_int & 0xFF;`
returning `(buffer[0], buffer[1])`. -/
def phEncodeBytes (ph : ℚ) : ℕ × ℕ :=
  let ph_int : ℕ := (ratTrunc (ph * 100) % 65536).toNat
  (ph_int / 2 ^ 8, ph_int % 2 ^ 8)

/-- Result of one `sensor_ph_get_payload` call: the returned byte count,
the bytes written to `config->buffer`, and the driver state afterwards. -/
structure PayloadResult where
  count : ℕ
  buffer : List ℕ
  state : PhState
deriving DecidableEq

/-- `sensor_ph_get_payload`: returns 0 when the config pointer is null or
the sensor unavailable; otherwise reads via `sensor_ph_read_all` into a
local record, substitutes `SENSOR_ERROR_PH` when that read fails, encodes
two bytes and returns 2. -/
def sensor_ph_get_payload (st : PhState) (env : PhEnv) (config_present : Bool) :
    PayloadResult :=
  if !config_present || !st.sensor_available then ⟨0, [], st⟩
  else
    let r := sensor_ph_read_all st env (some ⟨env.uninit_ph⟩)
    let d := r.data.getD ⟨env.uninit_ph⟩
    let ph := if r.ok then d.ph else SENSOR_ERROR_PH
    let b := phEncodeBytes ph
    ⟨2, [b.1, b.2], r.state⟩

/-- `sensor_ph_set_available_for_testing`: forces the availability flag. -/
def sensor_ph_set_available_for_testing (st : PhState) (available : Bool) : PhState :=
  { st with sensor_available := available }

/-- `sensor_ph_process_serial`: does nothing when unavailable or when no
serial input is pending; otherwise powers the rail on, takes a quick
reading, hands it to the library's calibration routine, and powers the
rail off. The library call affects no driver state. -/
def sensor_ph_process_serial (st : PhState) (env : PhEnv) : PhState :=
  if !st.sensor_available then st
  else if !env.serial_pending then st
  else sensor_ph_power_off (sensor_ph_power_on st)

/-! ### The TTN decoder-mirror generator -/

/-- The compile-time sensor selection flags that gate the generator's
`#ifdef` blocks. -/
structure SensorConfig where
  enable_ph : Bool
  enable_bme280 : Bool
  enable_ds18b20 : Bool
deriving DecidableEq

/-- Fields the emitted JavaScript decoder can populate. -/
inductive TtnField
  | battery
  | ph
  | temperature_ext
  | temperature_water
  | humidity
  | pressure
deriving DecidableEq

/-- Statements of the emitted JavaScript decoder, one per emitter
function in `ttn_decoder_generator.cpp`. -/
inductive JsStmt
  | decodeByte (f : TtnField)
  | decodeLE16 (f : TtnField) (scale : ℚ)
  | checkLength (expected : ℕ)
  | ret
deriving DecidableEq

/-- `generate_and_print_ttn_decoder` (and, with identical structure,
`generate_ttn_decoder_string`): header, the fixed payload-length
validation, the battery byte, then one block per `#ifdef`-enabled sensor
in source order, then the footer return. -/
def generateDecoder (cfg : SensorConfig) : List JsStmt :=
  [JsStmt.checkLength 12, JsStmt.decodeByte TtnField.battery]
    ++ (if cfg.enable_ph then [JsStmt.decodeLE16 TtnField.ph 100] else [])
    ++ (if cfg.enable_bme280 then [JsStmt.decodeLE16 TtnField.temperature_ext 100] else [])
    ++ (if cfg.enable_ds18b20 then [JsStmt.decodeLE16 TtnField.temperature_water 100] else [])
    ++ (if cfg.enable_bme280 then
          [JsStmt.decodeLE16 TtnField.humidity 100, JsStmt.decodeLE16 TtnField.pressure 10]
        else [])
    ++ [JsStmt.ret]

/-- `bytes[i]` in the emitted JavaScript (0 as the out-of-range default;
never reached on the inputs considered here). -/
def byteAt (bytes : List ℕ) (i : ℕ) : ℕ :=
  bytes.getD i 0

/-- `var raw = bytes[o++] | (bytes[o+1] << 8); data.f = raw / scale;` -/
def decodeLE16val (b0 b1 : ℕ) (scale : ℚ) : ℚ :=
  ((b0 : ℚ) + (b1 : ℚ) * 256) / scale

/-- The decoder routine emitted for the pH field by `print_ph_decoder`
and `generate_ttn_decoder_string`: `raw = byte0 | byte1 << 8`,
`value = raw / 100.0`. -/
def ph_decode_mirror (b0 b1 : ℕ) : ℚ :=
  decodeLE16val b0 b1 100

/-- Running state of the emitted JavaScript decoder: the byte offset, the
`data` object (field-to-value pairs in insertion order), and whether the
routine returned with a length warning. -/
structure JsState where
  offset : ℕ
  data : List (TtnField × ℚ)
  warned : Bool
deriving DecidableEq

/-- Interpreter for the emitted JavaScript.  A failed length check
returns immediately with the data decoded so far plus a warning. -/
def runStmts : List JsStmt → List ℕ → JsState → JsState
  | [], _, st => st
  | JsStmt.checkLength n :: rest, bytes, st =>
      if bytes.length ≠ n then { st with warned := true }
      else runStmts rest bytes st
  | JsStmt.decodeByte f :: rest, bytes, st =>
      runStmts rest bytes
        { st with offset := st.offset + 1,
                  data := st.data ++ [(f, (byteAt bytes st.offset : ℚ))] }
  | JsStmt.decodeLE16 f s :: rest, bytes, st =>
      runStmts rest bytes
        { st with offset := st.offset + 2,
                  data := st.data ++
                    [(f, decodeLE16val (byteAt bytes st.offset) (byteAt bytes (st.offset + 1)) s)] }
  | JsStmt.ret :: _, _, st => st

/-- Behavior of the decoder routine emitted for configuration `cfg` on a
received payload `bytes`. -/
def runEmittedDecoder (cfg : SensorConfig) (bytes : List ℕ) : JsState :=
  runStmts (generateDecoder cfg) bytes ⟨0, [], false⟩

/-- Follows the spec's width table: the total payload width implied by
the active sensor set (1 battery byte, 2 per pH, 2+2+2 per BME280 field
group, 2 per DS18B20).  Stated from the spec for comparison with the
check the generator actually emits. -/
def specImpliedWidth (cfg : SensorConfig) : ℕ :=
  1 + (if cfg.enable_ph then 2 else 0)
    + (if cfg.enable_bme280 then 6 else 0)
    + (if cfg.enable_ds18b20 then 2 else 0)

/-- Field order the emitted decoder reports when it decodes. -/
def decodedFieldOrder (cfg : SensorConfig) : List TtnField :=
  TtnField.battery ::
    ((if cfg.enable_ph then [TtnField.ph] else [])
      ++ (if cfg.enable_bme280 then [TtnField.temperature_ext] else [])
      ++ (if cfg.enable_ds18b20 then [TtnField.temperature_water] else [])
      ++ (if cfg.enable_bme280 then [TtnField.humidity, TtnField.pressure] else []))

/-! ### Helper lemmas -/

/-- Encoding the reading 7.42 (raw value 742) produces the byte pair
`(buffer[0], buffer[1]) = (2, 230)`: the high byte lands first. -/
lemma phEncode_742 : phEncodeBytes (742 / 100) = (2, 230) := by
  simp only [phEncodeBytes]
  rw [show ratTrunc ((742 : ℚ) / 100 * 100) = 742 by
    rw [show ((742 : ℚ) / 100 * 100) = 742 by norm_num]
    unfold ratTrunc
    norm_num]
  decide

/-- The emitted pH decode routine applied to the byte pair `(2, 230)`. -/
lemma ph_decode_two_230 : ph_decode_mirror 2 230 = 58882 / 100 := by
  unfold ph_decode_mirror decodeLE16val
  norm_num

/-- When `sensor_ph_read_all` returns `false` it has touched neither the
record nor the state, and the cause is unavailability or a null record. -/
lemma readAll_false_frame (st : PhState) (env : PhEnv) (d : Option sensor_data_t)
    (h : (sensor_ph_read_all st env d).ok = false) :
    (sensor_ph_read_all st env d).data = d ∧
      (st.sensor_available = false ∨ d = none) := by
  by_cases ha : st.sensor_available = true
  · cases d with
    | none => simp [sensor_ph_read_all, ha]
    | some v => simp [sensor_ph_read_all, ha] at h
  · have ha' : st.sensor_available = false := by simpa using ha
    simp [sensor_ph_read_all, ha']

/-- A power-on followed by a power-off always leaves the rail off. -/
lemma power_cycle_powered_off (st : PhState) :
    (sensor_ph_power_off (sensor_ph_power_on st)).sensor_powered = false := by
  by_cases hp : st.sensor_powered <;>
    simp [sensor_ph_power_on, sensor_ph_power_off, hp]

/-- The power helpers never touch the availability flag. -/
lemma power_cycle_available (st : PhState) :
    (sensor_ph_power_off (sensor_ph_power_on st)).sensor_available =
      st.sensor_available := by
  by_cases hp : st.sensor_powered <;>
    simp [sensor_ph_power_on, sensor_ph_power_off, hp]

/-- `sensor_ph_read_all` never changes the availability flag. -/
lemma readAll_preserves_available (st : PhState) (env : PhEnv)
    (d : Option sensor_data_t) :
    (sensor_ph_read_all st env d).state.sensor_available =
      st.sensor_available := by
  by_cases ha : st.sensor_available = true
  · cases d with
    | none => simp [sensor_ph_read_all, ha]
    | some v => simp [sensor_ph_read_all, ha, power_cycle_available]
  · have ha' : st.sensor_available = false := by simpa using ha
    simp [sensor_ph_read_all, ha']

/-! ### Claims -/

/-- Claim C1: the spec claims `sensor_ph_get_payload` writes the pH as a
16-bit little-endian integer (low byte first).  Evaluating the encoder at
the in-range reading 7.42 (raw 742 = 0x2E6) shows the code writes the
HIGH byte to `buffer[0]` and the low byte to `buffer[1]` — big-endian —
contradicting the claim, the repo's own emitted decoder and its printed
payload documentation. -/
theorem c1_encoder_writes_big_endian :
    (sensor_ph_get_payload ⟨true, false, 25⟩ ⟨742 / 100, false, 0⟩ true).buffer =
      [2, 230] ∧
    ¬ (sensor_ph_get_payload ⟨true, false, 25⟩ ⟨742 / 100, false, 0⟩ true).buffer =
      [742 % 2 ^ 8, 742 / 2 ^ 8] := by
  have h : (sensor_ph_get_payload ⟨true, false, 25⟩ ⟨742 / 100, false, 0⟩ true).buffer =
      [2, 230] := by
    simp [sensor_ph_get_payload, sensor_ph_read_all, read_ph_value, phEncode_742]
  exact ⟨h, by rw [h]; decide⟩

/-- Claim C2: encoding the in-range value 7.42 with `sensor_ph_get_payload`
and decoding the two bytes with the emitted mirror routine
(`raw = byte0 | byte1 << 8; value = raw / 100.0`) yields 588.82, which is
not within ±0.01 of 7.42 — the round-trip claim fails because the encoder
writes big-endian while the mirror reads little-endian. -/
theorem c2_roundtrip_fails :
    ph_decode_mirror (phEncodeBytes (742 / 100)).1 (phEncodeBytes (742 / 100)).2 =
      58882 / 100 ∧
    ¬ |ph_decode_mirror (phEncodeBytes (742 / 100)).1 (phEncodeBytes (742 / 100)).2 -
        742 / 100| ≤ 1 / 100 := by
  rw [phEncode_742]
  refine ⟨ph_decode_two_230, ?_⟩
  rw [show ph_decode_mirror (2, 230).1 (2, 230).2 = 58882 / 100 from ph_decode_two_230]
  rw [abs_of_nonneg (by norm_num)]
  norm_num

/-- Claim C3 counterexample: with only the pH sensor enabled the active
set implies a 3-byte payload, yet on a correctly sized 3-byte payload the
emitted routine still warns (its check is the fixed constant 12) and
returns an empty field map instead of decoding the fields. -/
theorem c3_counterexample :
    specImpliedWidth ⟨true, false, false⟩ = 3 ∧
    (runEmittedDecoder ⟨true, false, false⟩ [87, 230, 2]).warned = true ∧
    (runEmittedDecoder ⟨true, false, false⟩ [87, 230, 2]).data = [] := by
  decide

/-- Claim C3 (amended): for every configuration the emitted routine checks
the payload length against the fixed constant 12, not the width implied by
the active sensor set; on a mismatch it returns early with a warning and
an empty field map, decoding nothing; only on an exactly-12-byte payload
does it decode, reporting the active fields in canonical order with no
warning. -/
theorem c3_amended_fixed_length_check :
    ∀ (cfg : SensorConfig) (bytes : List ℕ),
      (bytes.length ≠ 12 → runEmittedDecoder cfg bytes = ⟨0, [], true⟩) ∧
      (bytes.length = 12 →
        (runEmittedDecoder cfg bytes).warned = false ∧
        (runEmittedDecoder cfg bytes).data.map Prod.fst = decodedFieldOrder cfg) := by
  intro cfg bytes
  constructor
  · intro h
    simp [runEmittedDecoder, generateDecoder, runStmts, h]
  · intro h
    rcases cfg with ⟨p, b, d⟩
    cases p <;> cases b <;> cases d <;>
      simp [runEmittedDecoder, generateDecoder, runStmts, decodedFieldOrder, h]

/-- Witness for C3 (amended) at the full configuration and a concrete
12-byte payload. -/
theorem c3_amended_fixed_length_check_witness :
    (runEmittedDecoder ⟨true, true, true⟩ (List.range 12)).warned = false ∧
    (runEmittedDecoder ⟨true, true, true⟩ (List.range 12)).data.map Prod.fst =
      decodedFieldOrder ⟨true, true, true⟩ :=
  (c3_amended_fixed_length_check ⟨true, true, true⟩ (List.range 12)).2 (by decide)

/-- Claim C4 counterexample: with the sensor unavailable,
`sensor_ph_read_all` returns `false` and leaves the output record exactly
as it was (here holding 0, which is not the error sentinel), refuting the
claim that a `false` return always stores `SENSOR_ERROR_PH`. -/
theorem c4_counterexample :
    (sensor_ph_read_all ⟨false, false, 25⟩ ⟨7, false, 0⟩ (some ⟨0⟩)).ok = false ∧
    (sensor_ph_read_all ⟨false, false, 25⟩ ⟨7, false, 0⟩ (some ⟨0⟩)).data = some ⟨0⟩ ∧
    (0 : ℚ) ≠ SENSOR_ERROR_PH := by
  refine ⟨by simp [sensor_ph_read_all], by simp [sensor_ph_read_all], by
    unfold SENSOR_ERROR_PH; norm_num⟩

/-- Claim C4 (amended): whenever `sensor_ph_read_all` returns `false` —
which happens exactly when the sensor is unavailable or the record
pointer is null — it leaves the output record untouched; the error
sentinel is installed by `sensor_ph_get_payload`, not by `read_all`. -/
theorem c4_amended_read_all_false_frame :
    ∀ (st : PhState) (env : PhEnv) (d : Option sensor_data_t),
      (sensor_ph_read_all st env d).ok = false →
      (sensor_ph_read_all st env d).data = d ∧
        (st.sensor_available = false ∨ d = none) :=
  fun st env d h => readAll_false_frame st env d h

/-- Witness for C4 (amended): an unavailable sensor with a record holding 3. -/
theorem c4_amended_read_all_false_frame_witness :
    (sensor_ph_read_all ⟨false, false, 25⟩ ⟨7, false, 0⟩ (some ⟨3⟩)).data = some ⟨3⟩ ∧
    ((⟨false, false, 25⟩ : PhState).sensor_available = false ∨
      (some (⟨3⟩ : sensor_data_t)) = none) :=
  c4_amended_read_all_false_frame ⟨false, false, 25⟩ ⟨7, false, 0⟩ (some ⟨3⟩)
    (by simp [sensor_ph_read_all])

/-- Claim C5: `sensor_ph_get_payload` returns 0 bytes exactly when the
config pointer is null or the sensor unavailable; whenever it returns a
nonzero count it returns the full 2-byte width and has written 2 bytes —
a read never shortens the payload. -/
theorem c5_payload_full_width :
    ∀ (st : PhState) (env : PhEnv) (config_present : Bool),
      ((sensor_ph_get_payload st env config_present).count = 0 ↔
        config_present = false ∨ st.sensor_available = false) ∧
      (config_present = true → st.sensor_available = true →
        (sensor_ph_get_payload st env config_present).count = 2 ∧
        (sensor_ph_get_payload st env config_present).buffer.length = 2) := by
  intro st env cp
  cases cp <;> cases h : st.sensor_available <;>
    simp [sensor_ph_get_payload, sensor_ph_read_all, h]

/-- Witness for C5 at an available sensor with a config present. -/
theorem c5_payload_full_width_witness :
    (sensor_ph_get_payload ⟨true, false, 25⟩ ⟨7, false, 0⟩ true).count = 2 ∧
    (sensor_ph_get_payload ⟨true, false, 25⟩ ⟨7, false, 0⟩ true).buffer.length = 2 :=
  (c5_payload_full_width ⟨true, false, 25⟩ ⟨7, false, 0⟩ true).2 rfl rfl

/-- Claim C6: while available, a read always succeeds and stores the value
read — even an implausible one — and an out-of-range value additionally
triggers the logged warning; `sensor_ph_read_all` returns `false` only for
communication-level causes (sensor unavailable or null record), never
because of a bad reading. -/
theorem c6_out_of_range_warning_not_failure :
    ∀ (st : PhState) (env : PhEnv) (d₀ : sensor_data_t),
      (st.sensor_available = true →
        (sensor_ph_read_all st env (some d₀)).ok = true ∧
        (sensor_ph_read_all st env (some d₀)).data = some ⟨env.ph_value⟩ ∧
        ((env.ph_value < PH_MIN ∨ PH_MAX < env.ph_value) →
          (sensor_ph_read_all st env (some d₀)).warned_out_of_range = true)) ∧
      (∀ d, (sensor_ph_read_all st env d).ok = false →
        st.sensor_available = false ∨ d = none) := by
  intro st env d₀
  constructor
  · intro ha
    refine ⟨by simp [sensor_ph_read_all, ha], by simp [sensor_ph_read_all, read_ph_value, ha], ?_⟩
    intro hr
    simp [sensor_ph_read_all, read_ph_value, ha, if_pos hr]
  · intro d h
    exact (readAll_false_frame st env d h).2

/-- Witness for C6: an available sensor reading 15, which exceeds `PH_MAX`. -/
theorem c6_out_of_range_warning_not_failure_witness :
    (sensor_ph_read_all ⟨true, false, 25⟩ ⟨15, false, 0⟩ (some ⟨0⟩)).ok = true ∧
    (sensor_ph_read_all ⟨true, false, 25⟩ ⟨15, false, 0⟩ (some ⟨0⟩)).data = some ⟨15⟩ ∧
    (sensor_ph_read_all ⟨true, false, 25⟩ ⟨15, false, 0⟩ (some ⟨0⟩)).warned_out_of_range =
      true := by
  have h := (c6_out_of_range_warning_not_failure ⟨true, false, 25⟩ ⟨15, false, 0⟩ ⟨0⟩).1 rfl
  exact ⟨h.1, h.2.1, h.2.2 (Or.inr (by unfold PH_MAX; norm_num))⟩

/-- Claim C7: `sensor_ph_retry_init` is a no-op returning `true` when the
sensor is available; from the unavailable state it re-runs
`sensor_ph_init`, and it ends available exactly when that re-attempt
reports success. -/
theorem c7_retry_init_noop_when_available :
    ∀ st : PhState,
      (st.sensor_available = true → sensor_ph_retry_init st = (true, st)) ∧
      (st.sensor_available = false →
        sensor_ph_retry_init st = sensor_ph_init st ∧
        ((sensor_ph_retry_init st).2.sensor_available = true ↔
          (sensor_ph_init st).1 = true)) := by
  intro st
  constructor
  · intro h
    simp [sensor_ph_retry_init, h]
  · intro h
    simp [sensor_ph_retry_init, sensor_ph_init, h]

/-- Witness for C7 at a concrete available state. -/
theorem c7_retry_init_noop_when_available_witness :
    sensor_ph_retry_init ⟨true, true, 20⟩ = (true, ⟨true, true, 20⟩) :=
  (c7_retry_init_noop_when_available ⟨true, true, 20⟩).1 rfl

/-- Claim C8: both `sensor_ph_read_all` and `sensor_ph_process_serial`
either return with the power rail de-energized or return without having
touched the state at all — no path that energizes the rail returns with
it still on. -/
theorem c8_power_rail_released :
    ∀ (st : PhState) (env : PhEnv) (d : Option sensor_data_t),
      ((sensor_ph_read_all st env d).state.sensor_powered = false ∨
        (sensor_ph_read_all st env d).state = st) ∧
      ((sensor_ph_process_serial st env).sensor_powered = false ∨
        sensor_ph_process_serial st env = st) := by
  intro st env d
  constructor
  · by_cases ha : st.sensor_available = true
    · cases d with
      | none => right; simp [sensor_ph_read_all, ha]
      | some v => left; simp [sensor_ph_read_all, ha, power_cycle_powered_off]
    · have ha' : st.sensor_available = false := by simpa using ha
      right; simp [sensor_ph_read_all, ha']
  · by_cases ha : st.sensor_available = true
    · by_cases hs : env.serial_pending = true
      · left; simp [sensor_ph_process_serial, ha, hs, power_cycle_powered_off]
      · have hs' : env.serial_pending = false := by simpa using hs
        right; simp [sensor_ph_process_serial, ha, hs']
    · have ha' : st.sensor_available = false := by simpa using ha
      right; simp [sensor_ph_process_serial, ha']

/-- Claim C9: `sensor_ph_read_all`, `sensor_ph_get_payload` and
`sensor_ph_process_serial` never change the availability flag — a read is
never a demotion. -/
theorem c9_availability_never_demoted_by_read :
    ∀ (st : PhState) (env : PhEnv) (d : Option sensor_data_t) (cp : Bool),
      (sensor_ph_read_all st env d).state.sensor_available = st.sensor_available ∧
      (sensor_ph_get_payload st env cp).state.sensor_available = st.sensor_available ∧
      (sensor_ph_process_serial st env).sensor_available = st.sensor_available := by
  intro st env d cp
  refine ⟨readAll_preserves_available st env d, ?_, ?_⟩
  · cases cp <;> cases h : st.sensor_available <;>
      simp [sensor_ph_get_payload, sensor_ph_read_all, power_cycle_available, h]
  · by_cases ha : st.sensor_available = true
    · by_cases hs : env.serial_pending = true
      · simp [sensor_ph_process_serial, ha, hs, power_cycle_available]
      · have hs' : env.serial_pending = false := by simpa using hs
        simp [sensor_ph_process_serial, ha, hs']
    · have ha' : st.sensor_available = false := by simpa using ha
      simp [sensor_ph_process_serial, ha']

/-- Claim C10: `sensor_ph_init` always returns `true` and unconditionally
marks the sensor available, so `sensor_ph_is_available` is `true`
immediately after any call to it — the failure transition is unreachable
for this driver. -/
theorem c10_init_always_succeeds :
    ∀ st : PhState,
      (sensor_ph_init st).1 = true ∧
      sensor_ph_is_available (sensor_ph_init st).2 = true := by
  intro st
  exact ⟨rfl, rfl⟩
